import Mathlib

/-!
Verification of the kRPC generated service-proxy sources (krpc.hpp,
infernal_robotics.hpp and the unnamed service headers) against their
specification.  The generated proxies call into a client runtime
(krpc/client.hpp, krpc/encoder.hpp, krpc/decoder.hpp, krpc/stream.hpp,
krpc/object.hpp, krpc/error.hpp) that is not part of these files; those
boundary pieces are modelled from the spec and marked as such, while every
proxy body, enum codec and constructor below is translated directly from the
source files.
-/

namespace Krpc

/-- An encoded value on the wire: the C++ sources use std::string as the byte
buffer for encoded arguments and results. -/
abbrev Bytes := String

/-- A procedure call descriptor: service name, procedure name and the ordered
list of already-encoded arguments.  This is the krpc::schema::ProcedureCall
message, whose three relevant fields are fixed by the spec (section 3) and by
how the generated code builds it through Client::build_call. -/
structure ProcedureCall where
  service : String
  procedure : String
  arguments : List Bytes
deriving DecidableEq, Repr

/-- The typed exceptions nested in the KRPC service class
(krpc.hpp lines 32-60), each constructed from a message string. -/
inductive Exc where
  | argumentException : String → Exc
  | argumentNullException : String → Exc
  | argumentOutOfRangeException : String → Exc
  | invalidOperationException : String → Exc
deriving DecidableEq, Repr

/-- Modelled from the spec: the RPCError base class (krpc/error.hpp, not among
these files) stores the message passed by each typed exception constructor;
the spec (section 7) says typed exceptions carry the server-supplied message
unchanged. -/
def Exc.message : Exc → String
  | .argumentException m => m
  | .argumentNullException m => m
  | .argumentOutOfRangeException m => m
  | .invalidOperationException m => m

/-- One entry of the exception registry: a (service, exception name) pair and
the factory producing the typed exception from a message. -/
structure ThrowerEntry where
  service : String
  name : String
  thrower : String → Exc

/-- Failures surfaced by an invocation: a transport or server fault carried as
a message, or a local failure decoding the response. -/
inductive RpcFailure where
  | serverFault : String → RpcFailure
  | decodeFailure : RpcFailure
deriving DecidableEq, Repr

/-- A client connection: a response oracle for the wire (what the server
answers to each (service, procedure, arguments) triple, or a transport
failure), and the exception registry the proxies populate.  The Client class
itself is in the runtime, not among these files; these two components are the
ones the generated code interacts with. -/
structure Client where
  respond : String → String → List Bytes → Except String Bytes
  throwers : List ThrowerEntry

/-- Modelled from the spec: Client::add_exception_thrower is in the client
runtime, not among these files; the spec (section 4.5) says
register(service_name, exception_name, factory) adds the entry to the
connection's table. -/
def Client.add_exception_thrower (c : Client) (service name : String)
    (thrower : String → Exc) : Client :=
  ⟨c.respond, c.throwers ++ [⟨service, name, thrower⟩]⟩

/-- Modelled from the spec: Client::build_call is in the client runtime, not
among these files; the spec (section 4.2) says it produces an immutable
(service, procedure, encoded arguments) descriptor and that no network
activity occurs. -/
def Client.build_call (_c : Client) (service procedure : String)
    (args : List Bytes) : ProcedureCall :=
  ⟨service, procedure, args⟩

/-- Modelled from the spec: Client::invoke is in the client runtime, not among
these files; the spec (section 4.3) says it sends the (service, procedure,
arguments) triple and returns the raw result bytes, or fails.  The embedding
also returns the list of triples sent over the wire, so theorems can speak
about the I/O a proxy method performs. -/
def Client.invoke (c : Client) (service procedure : String)
    (args : List Bytes) : Except RpcFailure (Bytes × List ProcedureCall) :=
  match c.respond service procedure args with
  | .ok data => .ok (data, [⟨service, procedure, args⟩])
  | .error e => .error (.serverFault e)

/-- Invoking a prebuilt descriptor sends exactly its own triple. -/
def Client.invokeCall (c : Client) (d : ProcedureCall) :
    Except RpcFailure (Bytes × List ProcedureCall) :=
  c.invoke d.service d.procedure d.arguments

/-- The response decoding step the generated proxy bodies perform after an
invoke: decoder::decode(_result, _data, this->_client). -/
def decodeResult {α : Type} (dec : Bytes → Client → Option α) (c : Client)
    (r : Except RpcFailure (Bytes × List ProcedureCall)) :
    Except RpcFailure (α × List ProcedureCall) :=
  match r with
  | .error e => .error e
  | .ok (data, sent) =>
    match dec data c with
    | some v => .ok (v, sent)
    | none => .error .decodeFailure

/-- The void-returning proxy bodies drop the response bytes after the invoke
round trip. -/
def discardResult (r : Except RpcFailure (Bytes × List ProcedureCall)) :
    Except RpcFailure (Unit × List ProcedureCall) :=
  match r with
  | .error e => .error e
  | .ok (_, sent) => .ok ((), sent)

/-- The encoding environment: the primitive codecs live in the runtime
encoder and decoder headers, which are not among these files, so they are
abstract fields here (including the carrier types for C++ float, double and
the krpc::schema::Stream result message); the generated enum codecs below are
defined on top of them, exactly as the sources delegate to
krpc::encoder::encode and krpc::decoder::decode. -/
structure Env : Type 1 where
  FloatT : Type
  DoubleT : Type
  StreamMsgT : Type
  encodeBool : Bool → Bytes
  encodeInt32 : Int → Bytes
  decodeInt32 : Bytes → Option Int
  encodeUInt64 : Nat → Bytes
  encodeFloat : FloatT → Bytes
  encodeString : String → Bytes
  encodeTuple3 : DoubleT × DoubleT × DoubleT → Bytes
  encodeProcCall : ProcedureCall → Bytes
  decodeStreamMsg : Bytes → Client → Option StreamMsgT

/-- KRPC::GameScene (krpc.hpp lines 65-86), a scoped C++ enum with underlying
type int: its values are the underlying integers, with five named enumerators
0 through 4. -/
structure GameScene where
  val : Int
deriving DecidableEq, Repr

def GameScene.space_center : GameScene := ⟨0⟩

def GameScene.flight : GameScene := ⟨1⟩

def GameScene.tracking_station : GameScene := ⟨2⟩

def GameScene.editor_vab : GameScene := ⟨3⟩

def GameScene.editor_sph : GameScene := ⟨4⟩

/-- encoder::encode(const services::KRPC::GameScene&) (krpc.hpp lines
816-818): encode the static_cast of the value to int32. -/
def encodeGameScene (env : Env) (v : GameScene) : Bytes :=
  env.encodeInt32 v.val

/-- decoder::decode(services::KRPC::GameScene&, data, client) (krpc.hpp lines
824-828): decode an int32 and static_cast it to the enum, with no range
check. -/
def decodeGameScene (env : Env) (data : Bytes) : Option GameScene :=
  match env.decodeInt32 data with
  | some x => some ⟨x⟩
  | none => none

/-- RemoteTech::Target (part_002 lines 32-53), a scoped C++ enum with five
named enumerators 0 through 4. -/
structure Target where
  val : Int
deriving DecidableEq, Repr

def Target.active_vessel : Target := ⟨0⟩

def Target.celestial_body : Target := ⟨1⟩

def Target.ground_station : Target := ⟨2⟩

def Target.vessel : Target := ⟨3⟩

def Target.none : Target := ⟨4⟩

/-- encoder::encode(const services::RemoteTech::Target&) (part_002 lines
282-284): encode the static_cast of the value to int32. -/
def encodeTarget (env : Env) (v : Target) : Bytes :=
  env.encodeInt32 v.val

/-- decoder::decode(services::RemoteTech::Target&, data, client) (part_002
lines 290-294): decode an int32 and static_cast it to the enum, with no range
check. -/
def decodeTarget (env : Env) (data : Bytes) : Option Target :=
  match env.decodeInt32 data with
  | some x => some ⟨x⟩
  | none => none

/-- UI::MessagePosition (part_000 lines 57-77), a scoped C++ enum. -/
structure MessagePosition where
  val : Int
deriving DecidableEq, Repr

/-- encoder::encode(const services::UI::MessagePosition&) (part_000 lines
849-851): encode the static_cast of the value to int32. -/
def encodeMessagePosition (env : Env) (v : MessagePosition) : Bytes :=
  env.encodeInt32 v.val

/-- KRPC::KRPC(Client*) (krpc.hpp lines 834-848): registers the four
exception throwers on the client, in source order. -/
def KRPC.construct (client : Client) : Client :=
  ((((client.add_exception_thrower "KRPC" "ArgumentException"
        (fun msg => Exc.argumentException msg)).add_exception_thrower
        "KRPC" "ArgumentNullException"
        (fun msg => Exc.argumentNullException msg)).add_exception_thrower
        "KRPC" "ArgumentOutOfRangeException"
        (fun msg => Exc.argumentOutOfRangeException msg)).add_exception_thrower
        "KRPC" "InvalidOperationException"
        (fun msg => Exc.invalidOperationException msg))

/-- UI::UI(Client*) (part_000 lines 893-895): the constructor body is empty,
it only hands the client pointer to the Service base. -/
def UI.construct (client : Client) : Client :=
  client

/-- Drawing::Drawing(Client*) (part_001 lines 586-588): empty body. -/
def Drawing.construct (client : Client) : Client :=
  client

/-- KerbalAlarmClock::KerbalAlarmClock(Client*) (part_001 lines 2159-2161):
empty body. -/
def KerbalAlarmClock.construct (client : Client) : Client :=
  client

/-- RemoteTech::RemoteTech(Client*) (part_002 lines 300-302): empty body. -/
def RemoteTech.construct (client : Client) : Client :=
  client

/-- InfernalRobotics::InfernalRobotics(Client*) (infernal_robotics.hpp lines
506-508): empty body. -/
def InfernalRobotics.construct (client : Client) : Client :=
  client

/-- Modelled from the spec: krpc::Stream<T> (krpc/stream.hpp) is in the
client runtime, not among these files; the spec (section 3) says a Stream is
created from the owning connection and a ProcedureCall descriptor.  Only the
two constructor arguments the generated code passes are modelled. -/
structure StreamObj where
  client : Client
  call : ProcedureCall

/-- KRPC::add_stream (krpc.hpp lines 859-867): encodes call then start,
invokes ("KRPC", "AddStream") and decodes a krpc::schema::Stream from the
response.  Source default argument: bool start = true. -/
def KRPC.add_stream (env : Env) (c : Client) (call : ProcedureCall)
    (start : Bool) : Except RpcFailure (env.StreamMsgT × List ProcedureCall) :=
  decodeResult env.decodeStreamMsg c
    (c.invoke "KRPC" "AddStream" [env.encodeProcCall call, env.encodeBool start])

/-- KRPC::add_stream_stream (krpc.hpp lines 949-954): encodes call then
start and wraps build_call("KRPC", "AddStream", args) in a Stream.  Source
default argument: bool start = true. -/
def KRPC.add_stream_stream (env : Env) (c : Client) (call : ProcedureCall)
    (start : Bool) : StreamObj :=
  ⟨c, c.build_call "KRPC" "AddStream"
        [env.encodeProcCall call, env.encodeBool start]⟩

/-- KRPC::add_stream_call (krpc.hpp lines 990-995): encodes call then start
and returns build_call("KRPC", "AddStream", args).  Source default argument:
bool start = true. -/
def KRPC.add_stream_call (env : Env) (c : Client) (call : ProcedureCall)
    (start : Bool) : ProcedureCall :=
  c.build_call "KRPC" "AddStream" [env.encodeProcCall call, env.encodeBool start]

/-- The default of the start parameter in the definition of KRPC::add_stream
(krpc.hpp line 859): bool start = true. -/
def KRPC.add_stream_default_start : Bool := true

/-- The default of the start parameter in the definition of
KRPC::add_stream_stream (krpc.hpp line 949): bool start = true. -/
def KRPC.add_stream_stream_default_start : Bool := true

/-- The default of the start parameter in the definition of
KRPC::add_stream_call (krpc.hpp line 990): bool start = true. -/
def KRPC.add_stream_call_default_start : Bool := true

/-- KRPC::remove_stream (krpc.hpp lines 897-901): encodes id, invokes
("KRPC", "RemoveStream") and discards the response bytes. -/
def KRPC.remove_stream (env : Env) (c : Client) (id : Nat) :
    Except RpcFailure (Unit × List ProcedureCall) :=
  discardResult (c.invoke "KRPC" "RemoveStream" [env.encodeUInt64 id])

/-- KRPC::remove_stream_call (krpc.hpp lines 1013-1017): encodes id and
returns build_call("KRPC", "RemoveStream", args). -/
def KRPC.remove_stream_call (env : Env) (c : Client) (id : Nat) :
    ProcedureCall :=
  c.build_call "KRPC" "RemoveStream" [env.encodeUInt64 id]

/-- KRPC::set_stream_rate (krpc.hpp lines 903-908): encodes id then rate,
invokes ("KRPC", "SetStreamRate") and discards the response bytes. -/
def KRPC.set_stream_rate (env : Env) (c : Client) (id : Nat)
    (rate : env.FloatT) : Except RpcFailure (Unit × List ProcedureCall) :=
  discardResult
    (c.invoke "KRPC" "SetStreamRate" [env.encodeUInt64 id, env.encodeFloat rate])

/-- KRPC::set_stream_rate_call (krpc.hpp lines 1019-1024): encodes id then
rate and returns build_call("KRPC", "SetStreamRate", args). -/
def KRPC.set_stream_rate_call (env : Env) (c : Client) (id : Nat)
    (rate : env.FloatT) : ProcedureCall :=
  c.build_call "KRPC" "SetStreamRate" [env.encodeUInt64 id, env.encodeFloat rate]

/-- KRPC::start_stream (krpc.hpp lines 910-914): encodes id, invokes
("KRPC", "StartStream") and discards the response bytes. -/
def KRPC.start_stream (env : Env) (c : Client) (id : Nat) :
    Except RpcFailure (Unit × List ProcedureCall) :=
  discardResult (c.invoke "KRPC" "StartStream" [env.encodeUInt64 id])

/-- KRPC::start_stream_call (krpc.hpp lines 1026-1030): encodes id and
returns build_call("KRPC", "StartStream", args). -/
def KRPC.start_stream_call (env : Env) (c : Client) (id : Nat) :
    ProcedureCall :=
  c.build_call "KRPC" "StartStream" [env.encodeUInt64 id]

/-- KRPC::set_paused (krpc.hpp lines 937-941): encodes value, invokes
("KRPC", "set_Paused") and discards the response bytes. -/
def KRPC.set_paused (env : Env) (c : Client) (value : Bool) :
    Except RpcFailure (Unit × List ProcedureCall) :=
  discardResult (c.invoke "KRPC" "set_Paused" [env.encodeBool value])

/-- KRPC::set_paused_call (krpc.hpp lines 1044-1048): encodes value and
returns build_call("KRPC", "set_Paused", args). -/
def KRPC.set_paused_call (env : Env) (c : Client) (value : Bool) :
    ProcedureCall :=
  c.build_call "KRPC" "set_Paused" [env.encodeBool value]

/-- UI::message (part_000 lines 910-918): encodes content, duration,
position, color and size in that order, invokes ("UI", "Message") and
discards the response bytes. -/
def UI.message (env : Env) (c : Client) (content : String)
    (duration : env.FloatT) (position : MessagePosition)
    (color : env.DoubleT × env.DoubleT × env.DoubleT) (size : env.FloatT) :
    Except RpcFailure (Unit × List ProcedureCall) :=
  discardResult (c.invoke "UI" "Message"
    [env.encodeString content, env.encodeFloat duration,
     encodeMessagePosition env position, env.encodeTuple3 color,
     env.encodeFloat size])

/-- UI::message_call (part_000 lines 945-952): encodes content, duration,
position, color and size in that order and returns
build_call("UI", "Message", args). -/
def UI.message_call (env : Env) (c : Client) (content : String)
    (duration : env.FloatT) (position : MessagePosition)
    (color : env.DoubleT × env.DoubleT × env.DoubleT) (size : env.FloatT) :
    ProcedureCall :=
  c.build_call "UI" "Message"
    [env.encodeString content, env.encodeFloat duration,
     encodeMessagePosition env position, env.encodeTuple3 color,
     env.encodeFloat size]

/-- Modelled from the spec: krpc::Object<T> (krpc/object.hpp) is in the
client runtime, not among these files; the spec (section 3) describes a
remote object reference as a (connection, 64-bit identifier) pair, and the
generated constructors additionally pass a class-name string to the base. -/
structure RemoteObject where
  client : Option Client
  name : String
  id : Nat

/-- Modelled from the spec: identifier 0 is reserved to mean the null
reference. -/
def nullReferenceId : Nat := 0

/-- KRPC::Expression::Expression(Client*, uint64_t) (krpc.hpp lines
1050-1051): forwards to Object(client, "KRPC::Expression", id);
a null Client pointer is modelled as Option.none. -/
def Expression.construct (client : Option Client) (id : Nat) : RemoteObject :=
  ⟨client, "KRPC::Expression", id⟩

/-- The declared default of the client parameter of
KRPC::Expression::Expression (krpc.hpp line 205): Client* client = nullptr. -/
def Expression.default_client : Option Client := Option.none

/-- The declared default of the id parameter of
KRPC::Expression::Expression (krpc.hpp line 205): uint64_t id = 0. -/
def Expression.default_id : Nat := 0

/-- UI::Button::Button(Client*, uint64_t) (part_000 lines 959-960):
forwards to Object(client, "UI::Button", id). -/
def Button.construct (client : Option Client) (id : Nat) : RemoteObject :=
  ⟨client, "UI::Button", id⟩

/-- The declared default of the client parameter of UI::Button::Button
(part_000 line 183): Client* client = nullptr. -/
def Button.default_client : Option Client := Option.none

/-- The declared default of the id parameter of UI::Button::Button
(part_000 line 183): uint64_t id = 0. -/
def Button.default_id : Nat := 0

/-- A connection whose every I/O attempt fails immediately, with an empty
exception registry. -/
def failingClient : Client :=
  ⟨fun _ _ _ => Except.error "connection failed", []⟩

/-- A concrete encoding environment on trivial carrier types, used to
evaluate the embedding on closed inputs; its int32 decoder always yields 0. -/
def env0 : Env :=
  ⟨Unit, Unit, Unit, fun _ => "", fun _ => "", fun _ => some 0, fun _ => "",
   fun _ => "", fun _ => "", fun _ => "", fun _ => "", fun _ _ => some ()⟩

/-- A concrete encoding environment whose int32 decoder always yields 7, a
value outside the enumerator range of the five-enumerator service enums. -/
def env7 : Env :=
  ⟨Unit, Unit, Unit, fun _ => "", fun _ => "", fun _ => some 7, fun _ => "",
   fun _ => "", fun _ => "", fun _ => "", fun _ => "", fun _ _ => some ()⟩

/-- The registry after the KRPC constructor is the old registry followed by
the four entries it registers, in source order. -/
theorem krpc_construct_throwers_eq (c : Client) :
    (KRPC.construct c).throwers =
      c.throwers ++
        [⟨"KRPC", "ArgumentException", fun msg => Exc.argumentException msg⟩,
         ⟨"KRPC", "ArgumentNullException",
            fun msg => Exc.argumentNullException msg⟩,
         ⟨"KRPC", "ArgumentOutOfRangeException",
            fun msg => Exc.argumentOutOfRangeException msg⟩,
         ⟨"KRPC", "InvalidOperationException",
            fun msg => Exc.invalidOperationException msg⟩] := by
  simp [KRPC.construct, Client.add_exception_thrower, List.append_assoc]

/-- C1: constructing the KRPC service proxy on a client registers exactly
four exception throwers, for the pairs (KRPC, ArgumentException),
(KRPC, ArgumentNullException), (KRPC, ArgumentOutOfRangeException) and
(KRPC, InvalidOperationException), leaving the previous registry entries and
the connection untouched; and for every message string each registered
factory produces precisely the corresponding typed exception, whose stored
message is the supplied message unchanged. -/
theorem krpc_ctor_registers_four_exception_throwers (c : Client)
    (msg : String) :
    (KRPC.construct c).respond = c.respond ∧
    (KRPC.construct c).throwers.length = c.throwers.length + 4 ∧
    (KRPC.construct c).throwers.take c.throwers.length = c.throwers ∧
    ((KRPC.construct c).throwers.drop c.throwers.length).map
        (fun e => (e.service, e.name)) =
      [("KRPC", "ArgumentException"), ("KRPC", "ArgumentNullException"),
       ("KRPC", "ArgumentOutOfRangeException"),
       ("KRPC", "InvalidOperationException")] ∧
    ((KRPC.construct c).throwers.drop c.throwers.length).map
        (fun e => e.thrower msg) =
      [Exc.argumentException msg, Exc.argumentNullException msg,
       Exc.argumentOutOfRangeException msg, Exc.invalidOperationException msg] ∧
    ((KRPC.construct c).throwers.drop c.throwers.length).map
        (fun e => (e.thrower msg).message) = [msg, msg, msg, msg] := by
  refine ⟨rfl, ?_, ?_, ?_, ?_, ?_⟩
  · rw [krpc_construct_throwers_eq]; simp
  · rw [krpc_construct_throwers_eq, List.take_left]
  · rw [krpc_construct_throwers_eq, List.drop_left]; rfl
  · rw [krpc_construct_throwers_eq, List.drop_left]; rfl
  · rw [krpc_construct_throwers_eq, List.drop_left]; rfl

/-- C2: for each proxy operation, the (service, procedure, encoded
arguments) triple the plain method hands to invoke is exactly the descriptor
its _call variant obtains from build_call, which is also the descriptor its
_stream variant hands to the Stream constructor; in particular the AddStream
family all produce ("KRPC", "AddStream", [encode call, encode start]). -/
theorem proxy_variants_share_call_triple (env : Env) (c : Client)
    (call : ProcedureCall) (start : Bool) (id : Nat) (rate : env.FloatT)
    (value : Bool) :
    KRPC.add_stream_call env c call start =
      ⟨"KRPC", "AddStream", [env.encodeProcCall call, env.encodeBool start]⟩ ∧
    (KRPC.add_stream_stream env c call start).call =
      KRPC.add_stream_call env c call start ∧
    KRPC.add_stream env c call start =
      decodeResult env.decodeStreamMsg c
        (c.invokeCall (KRPC.add_stream_call env c call start)) ∧
    KRPC.remove_stream env c id =
      discardResult (c.invokeCall (KRPC.remove_stream_call env c id)) ∧
    KRPC.set_stream_rate env c id rate =
      discardResult (c.invokeCall (KRPC.set_stream_rate_call env c id rate)) ∧
    KRPC.start_stream env c id =
      discardResult (c.invokeCall (KRPC.start_stream_call env c id)) ∧
    KRPC.set_paused env c value =
      discardResult (c.invokeCall (KRPC.set_paused_call env c value)) :=
  ⟨rfl, rfl, rfl, rfl, rfl, rfl, rfl⟩

/-- C3: the _call variants perform no I/O: their result is exactly the
build_call descriptor of their service name, procedure name and encoded
arguments, it does not depend on the connection, and any number of
descriptors can be built on a connection whose every I/O attempt fails. -/
theorem call_variants_perform_no_io (env : Env) (c d : Client) (id : Nat)
    (value : Bool) (ids : List Nat) :
    KRPC.remove_stream_call env c id =
      c.build_call "KRPC" "RemoveStream" [env.encodeUInt64 id] ∧
    KRPC.set_paused_call env c value =
      c.build_call "KRPC" "set_Paused" [env.encodeBool value] ∧
    KRPC.remove_stream_call env c id = KRPC.remove_stream_call env d id ∧
    KRPC.set_paused_call env c value = KRPC.set_paused_call env d value ∧
    ids.map (KRPC.remove_stream_call env failingClient) =
      ids.map (fun i => ⟨"KRPC", "RemoveStream", [env.encodeUInt64 i]⟩) :=
  ⟨rfl, rfl, rfl, rfl, rfl⟩

/-- C4: a proxy method encodes exactly its parameters, in declared parameter
order: UI::message sends the five-element list [encode content,
encode duration, encode position, encode color, encode size] and
KRPC::set_stream_rate sends [encode id, encode rate]. -/
theorem proxy_methods_encode_args_in_declared_order (env : Env) (c : Client)
    (content : String) (duration : env.FloatT) (position : MessagePosition)
    (color : env.DoubleT × env.DoubleT × env.DoubleT) (size : env.FloatT)
    (id : Nat) (rate : env.FloatT) :
    UI.message env c content duration position color size =
      discardResult (c.invoke "UI" "Message"
        [env.encodeString content, env.encodeFloat duration,
         encodeMessagePosition env position, env.encodeTuple3 color,
         env.encodeFloat size]) ∧
    (UI.message_call env c content duration position color size).arguments =
      [env.encodeString content, env.encodeFloat duration,
       encodeMessagePosition env position, env.encodeTuple3 color,
       env.encodeFloat size] ∧
    KRPC.set_stream_rate env c id rate =
      discardResult (c.invoke "KRPC" "SetStreamRate"
        [env.encodeUInt64 id, env.encodeFloat rate]) ∧
    (KRPC.set_stream_rate_call env c id rate).arguments =
      [env.encodeUInt64 id, env.encodeFloat rate] :=
  ⟨rfl, rfl, rfl, rfl⟩

/-- C5: a generated service enum value is encoded as the int32 encoding of
its underlying integer, and decoding that encoding yields the value again
whenever the runtime int32 codec round-trips on that integer; stated for
KRPC::GameScene and RemoteTech::Target. -/
theorem enum_codec_round_trip (env : Env) (g : GameScene) (t : Target)
    (hg : env.decodeInt32 (env.encodeInt32 g.val) = some g.val)
    (ht : env.decodeInt32 (env.encodeInt32 t.val) = some t.val) :
    encodeGameScene env g = env.encodeInt32 g.val ∧
    decodeGameScene env (encodeGameScene env g) = some g ∧
    encodeTarget env t = env.encodeInt32 t.val ∧
    decodeTarget env (encodeTarget env t) = some t := by
  refine ⟨rfl, ?_, rfl, ?_⟩
  · unfold decodeGameScene encodeGameScene
    rw [hg]
  · unfold decodeTarget encodeTarget
    rw [ht]

/-- Witness for C5 at a concrete codec and the space_center enumerator. -/
theorem enum_codec_round_trip_witness :
    env0.decodeInt32 (env0.encodeInt32 GameScene.space_center.val) =
      some GameScene.space_center.val ∧
    decodeGameScene env0 (encodeGameScene env0 GameScene.space_center) =
      some GameScene.space_center :=
  ⟨rfl,
   (enum_codec_round_trip env0 GameScene.space_center Target.active_vessel
      rfl rfl).2.1⟩

/-- C6: the void-returning proxy methods still perform the invoke round trip
exactly once, with their (service, procedure, encoded arguments) triple, and
discard the response bytes; a transport failure propagates. -/
theorem void_proxy_methods_invoke_once (env : Env) (c : Client) (id : Nat)
    (value : Bool) :
    (KRPC.remove_stream env c id =
      match c.respond "KRPC" "RemoveStream" [env.encodeUInt64 id] with
      | .ok _ => .ok ((), [⟨"KRPC", "RemoveStream", [env.encodeUInt64 id]⟩])
      | .error e => .error (.serverFault e)) ∧
    (KRPC.start_stream env c id =
      match c.respond "KRPC" "StartStream" [env.encodeUInt64 id] with
      | .ok _ => .ok ((), [⟨"KRPC", "StartStream", [env.encodeUInt64 id]⟩])
      | .error e => .error (.serverFault e)) ∧
    (KRPC.set_paused env c value =
      match c.respond "KRPC" "set_Paused" [env.encodeBool value] with
      | .ok _ => .ok ((), [⟨"KRPC", "set_Paused", [env.encodeBool value]⟩])
      | .error e => .error (.serverFault e)) := by
  refine ⟨?_, ?_, ?_⟩
  · unfold KRPC.remove_stream discardResult Client.invoke
    cases c.respond "KRPC" "RemoveStream" [env.encodeUInt64 id] <;> rfl
  · unfold KRPC.start_stream discardResult Client.invoke
    cases c.respond "KRPC" "StartStream" [env.encodeUInt64 id] <;> rfl
  · unfold KRPC.set_paused discardResult Client.invoke
    cases c.respond "KRPC" "set_Paused" [env.encodeBool value] <;> rfl

/-- C7 (amended): only the KRPC service proxy populates the connection's
exception registry at construction (with its four entries); the UI, Drawing,
KerbalAlarmClock, RemoteTech and InfernalRobotics constructors register no
exception thrower and leave the registry unchanged. -/
theorem only_krpc_ctor_populates_exception_registry (c : Client) :
    (KRPC.construct c).throwers.length = c.throwers.length + 4 ∧
    (UI.construct c).throwers = c.throwers ∧
    (Drawing.construct c).throwers = c.throwers ∧
    (KerbalAlarmClock.construct c).throwers = c.throwers ∧
    (RemoteTech.construct c).throwers = c.throwers ∧
    (InfernalRobotics.construct c).throwers = c.throwers := by
  refine ⟨?_, rfl, rfl, rfl, rfl, rfl⟩
  rw [krpc_construct_throwers_eq]; simp

/-- C7 counterexample: constructing the UI service proxy on a concrete
client adds no exception registry entry at all, so construction of a service
proxy does not always add at least one entry for that service. -/
theorem ui_ctor_registers_no_exception_thrower :
    ¬ failingClient.throwers.length + 1 ≤
        (UI.construct failingClient).throwers.length := by
  decide

/-- C8: the remote-object proxy constructors KRPC::Expression::Expression
and UI::Button::Button default their client to nullptr and their identifier
to 0, so a default-constructed proxy carries no connection and denotes the
reserved null reference with identifier 0. -/
theorem remote_object_ctor_defaults_to_null_reference :
    Expression.default_client = Option.none ∧
    Expression.default_id = nullReferenceId ∧
    Button.default_client = Option.none ∧
    Button.default_id = nullReferenceId ∧
    (Expression.construct Expression.default_client
        Expression.default_id).client = Option.none ∧
    (Expression.construct Expression.default_client
        Expression.default_id).id = nullReferenceId ∧
    (Expression.construct Expression.default_client
        Expression.default_id).name = "KRPC::Expression" ∧
    (Button.construct Button.default_client Button.default_id).client =
      Option.none ∧
    (Button.construct Button.default_client Button.default_id).id =
      nullReferenceId ∧
    (Button.construct Button.default_client Button.default_id).name =
      "UI::Button" :=
  ⟨rfl, rfl, rfl, rfl, rfl, rfl, rfl, rfl, rfl, rfl⟩

/-- C9: the start parameter of KRPC::add_stream, KRPC::add_stream_stream and
KRPC::add_stream_call defaults to true, so omitting it registers the stream
as immediately started: the default-argument registration encodes true in
the second argument slot and coincides with passing start = true
explicitly. -/
theorem add_stream_default_start_is_true (env : Env) (c : Client)
    (call : ProcedureCall) :
    KRPC.add_stream_default_start = true ∧
    KRPC.add_stream_stream_default_start = true ∧
    KRPC.add_stream_call_default_start = true ∧
    KRPC.add_stream_call env c call KRPC.add_stream_call_default_start =
      KRPC.add_stream_call env c call true ∧
    (KRPC.add_stream_call env c call
        KRPC.add_stream_call_default_start).arguments =
      [env.encodeProcCall call, env.encodeBool true] ∧
    KRPC.add_stream env c call KRPC.add_stream_default_start =
      KRPC.add_stream env c call true ∧
    KRPC.add_stream_stream env c call KRPC.add_stream_stream_default_start =
      KRPC.add_stream_stream env c call true :=
  ⟨rfl, rfl, rfl, rfl, rfl, rfl, rfl⟩

/-- C10: decoding a generated service enum performs no range check: whenever
the runtime int32 decoder yields an integer n on some input, the enum decode
succeeds on that input and returns the cast of n to the enum type, even for
n outside the declared enumerators; stated for KRPC::GameScene and
RemoteTech::Target. -/
theorem enum_decode_has_no_range_check (env : Env) (data : Bytes) (n : Int)
    (h : env.decodeInt32 data = some n) :
    decodeGameScene env data = some ⟨n⟩ ∧
    decodeTarget env data = some ⟨n⟩ := by
  unfold decodeGameScene decodeTarget
  rw [h]
  exact ⟨rfl, rfl⟩

/-- Witness for C10: a codec whose int32 decoder yields 7 makes the
GameScene decode succeed with the out-of-range value 7, which is none of the
five declared enumerators. -/
theorem enum_decode_has_no_range_check_witness :
    env7.decodeInt32 "" = some 7 ∧
    decodeGameScene env7 "" = some ⟨7⟩ ∧
    GameScene.mk 7 ∉
      [GameScene.space_center, GameScene.flight, GameScene.tracking_station,
       GameScene.editor_vab, GameScene.editor_sph] :=
  ⟨rfl, (enum_decode_has_no_range_check env7 "" 7 rfl).1, by decide⟩

end Krpc
